import Mathlib

/-!
Shallow embedding of `src/tts_stt_converter.py` (didar67/text-speech-converter-cli).

The program is a CLI that converts text to speech (gTTS) and speech to text
(SpeechRecognition), reading configuration from `config.ini`, logging through a
process-wide logger named `TextSpeechLogger`, and writing results to files.

Modelling choices:
- Python exceptions become the inductive `PyExc`; the exception classes the
  code catches (`FileNotFoundError`, `PermissionError`, `sr.UnknownValueError`,
  `sr.RequestError`, `TypeError`, generic `Exception`) become constructors.
- The observable process state (`State`) records: the loaded configuration,
  the level set on `TextSpeechLogger`, a file-system map, the records emitted
  through `TextSpeechLogger` (these reach the configured log file and the
  console handlers), the records emitted through the module-level root
  `logging` calls (these do NOT reach the handlers attached to
  `TextSpeechLogger`), stdout lines, and the requests sent to the two external
  providers.
- The external providers and the OS are oracles (`TtsEnv`, `SttEnv`, `OsEnv`):
  each external call is a function returning `Except PyExc _`, so theorems
  quantify over every possible provider behaviour.
- Machine-level details (audio byte contents) are represented by `String`
  stand-ins; nothing in the program inspects them.
-/

/-- Python exception values, as distinguished by the `except` clauses of the
source.  Each carries the `str(e)` message where the source interpolates it. -/
inductive PyExc where
  | fileNotFound (msg : String)
  | permissionError (msg : String)
  | unknownValueError
  | requestError (msg : String)
  | typeError (msg : String)
  | otherError (msg : String)
deriving Repr, DecidableEq

/-- The string interpolation `f'...{err}'` applied to an exception: Python's
`str(e)` is the exception's message (empty for a bare `UnknownValueError`). -/
def PyExc.str : PyExc → String
  | .fileNotFound m => m
  | .permissionError m => m
  | .unknownValueError => ""
  | .requestError m => m
  | .typeError m => m
  | .otherError m => m

/-- Flat configuration data: section name ↦ (key ↦ value), the result of
`configparser.ConfigParser` reading `config.ini` (empty when the file is
absent — `ConfigParser.read` ignores missing files). -/
abbrev ConfigData := List (String × List (String × String))

/-- Lookup of one key in one section, `none` when the section or key is
missing. -/
def lookupCfg (cfg : ConfigData) (section_ key : String) : Option String :=
  match cfg.find? (fun p => p.1 = section_) with
  | Option.none => Option.none
  | some (_, entries) =>
    match entries.find? (fun p => p.1 = key) with
    | Option.none => Option.none
    | some (_, v) => some v

/-- `config.get(section, key, fallback=fb)`: the stored value when present,
otherwise the fallback.  No validation, no error on a missing file/section. -/
def configGet (cfg : ConfigData) (section_ key fb : String) : String :=
  match lookupCfg cfg section_ key with
  | Option.none => fb
  | some v => v

/-- Observable state of one process run. -/
structure State where
  /-- the parsed `config.ini` contents (module-level `config` object) -/
  config : ConfigData
  /-- the level set on `TextSpeechLogger` at startup -/
  loggerLevel : Nat
  /-- file system: path ↦ contents (most recent write first) -/
  fs : List (String × String)
  /-- records emitted through `TextSpeechLogger` (level, message); its two
  handlers forward these to the configured log file and the console -/
  loggerRecords : List (Nat × String)
  /-- records emitted through module-level `logging.info`-style calls on the
  root logger; the root logger has no handler attached to the configured log
  file, so these never reach it -/
  rootRecords : List (Nat × String)
  /-- lines written to stdout by `print` -/
  stdout : List String
  /-- synthesis requests sent to the gTTS provider: (text, language) -/
  ttsRequests : List (String × String)
  /-- recognition requests sent to the Google speech provider:
  (audio data, language) -/
  sttRequests : List (String × String)
deriving Repr, DecidableEq

/-- Contents of the file at `p`, if any. -/
def fsRead (fs : List (String × String)) (p : String) : Option String :=
  match fs.find? (fun q => q.1 = p) with
  | Option.none => Option.none
  | some (_, v) => some v

/-- Writing `v` to path `p` (open with mode `'w'` truncates/overwrites). -/
def fsWrite (fs : List (String × String)) (p v : String) :
    List (String × String) :=
  (p, v) :: fs

/-- `logger.error(msg)`: `TextSpeechLogger` emits an ERROR (=40) record iff the
level configured on it does not exceed ERROR. -/
def logError (s : State) (msg : String) : State :=
  if s.loggerLevel ≤ 40 then
    { s with loggerRecords := s.loggerRecords ++ [(40, msg)] }
  else s

/-- `logging.info(msg)`: an INFO (=20) record on the *root* logger (note: the
source's TTS success path calls `logging.info`, not `logger.info`). -/
def rootLogInfo (s : State) (msg : String) : State :=
  { s with rootRecords := s.rootRecords ++ [(20, msg)] }

/-- `print(msg)`. -/
def printLn (s : State) (msg : String) : State :=
  { s with stdout := s.stdout ++ [msg] }

/-- Behaviour of the gTTS provider: `result text lang path` is the audio
content saved at `path` by `gTTS(text=text, lang=lang).save(path)`, or the
exception that call raises.  On error nothing is written (`save` fails before
producing the file, e.g. `PermissionError` on open). -/
structure TtsEnv where
  result : String → String → String → Except PyExc String

/-- Behaviour of the OS and the speech-recognition library for one STT run. -/
structure SttEnv where
  /-- `sr.AudioFile(audio_path)` + `recognizer.record(file)`: the audio data,
  or the exception (`FileNotFoundError` when the file is missing, etc.) -/
  openAudio : String → Except PyExc String
  /-- `recognizer.recognize_google(audio, language=language)`: the transcript,
  or `sr.UnknownValueError` / `sr.RequestError` / other -/
  recognize : String → String → Except PyExc String
  /-- `open(output_path, 'w', encoding='utf-8')` -/
  openWrite : String → Except PyExc Unit

/-- The `except` clauses of `convert_text_to_speech`, in source order:
`PermissionError` first, then the generic `Exception` handler. -/
def ttsHandle (e : PyExc) (s : State) : State :=
  match e with
  | .permissionError m =>
    logError s ("Permission denied while saving file: " ++ m)
  | e => logError s ("Unexpected error occured in TTS: " ++ e.str)

/-- `convert_text_to_speech(text, output_path)`:
```
try:
    tts = gTTS(text=text, lang='en')
    tts.save(output_path)
    logging.info(f'Speech saved to: {output_path}')
    print(f'Speech saved to: {output_path}')
except PermissionError as pe:
    logger.error(f'Permission denied while saving file: {pe}')
except Exception as err:
    logger.error(f"Unexpected error occured in TTS: {err}")
```
The synthesis request always carries the literal language code `'en'`. -/
def convert_text_to_speech (env : TtsEnv) (text output_path : String)
    (s : State) : State :=
  let s0 := { s with ttsRequests := s.ttsRequests ++ [(text, "en")] }
  match env.result text "en" output_path with
  | .error e => ttsHandle e s0
  | .ok audio =>
    let s1 := { s0 with fs := fsWrite s0.fs output_path audio }
    let s2 := rootLogInfo s1 ("Speech saved to: " ++ output_path)
    printLn s2 ("Speech saved to: " ++ output_path)

/-- The `except` clauses of `convert_speech_to_text`, in source order:
`FileNotFoundError`, `sr.UnknownValueError`, `sr.RequestError`, then the
generic `Exception` handler (which also receives e.g. `PermissionError`). -/
def sttHandle (e : PyExc) (s : State) : State :=
  match e with
  | .fileNotFound m => logError s ("Audio file not found: " ++ m)
  | .unknownValueError => logError s "Speech was unintelligible."
  | .requestError m => logError s ("Sppech recognition API error: " ++ m)
  | e => logError s ("Unexpected error in STT: " ++ e.str)

/-- The message `sttHandle` logs for exception `e` (read off the handlers). -/
def sttMsgOf (e : PyExc) : String :=
  match e with
  | .fileNotFound m => "Audio file not found: " ++ m
  | .unknownValueError => "Speech was unintelligible."
  | .requestError m => "Sppech recognition API error: " ++ m
  | e => "Unexpected error in STT: " ++ e.str

/-- `convert_speech_to_text(audio_path, output_path, language='en')`:
```
try:
    with sr.AudioFile(audio_path) as file:
        audio = recognizer.record(file)
    text = recognizer.recognize_google(audio, language=language)
    with open(output_path, 'w', encoding='utf-8') as f:
        f.write(text)
except FileNotFoundError as err: logger.error(f'Audio file not found: {err}')
except sr.UnknownValueError: logger.error('Speech was unintelligible.')
except sr.RequestError as re: logger.error(f'Sppech recognition API error: {re}')
except Exception as err: logger.error(f'Unexpected error in STT: {err}')
```
Note: the success path logs nothing and prints nothing; the output file is
written only after recognition succeeds. -/
def convert_speech_to_text (env : SttEnv) (audio_path output_path : String)
    (language : String) (s : State) : State :=
  match env.openAudio audio_path with
  | .error e => sttHandle e s
  | .ok audio =>
    let s1 := { s with sttRequests := s.sttRequests ++ [(audio, language)] }
    match env.recognize audio language with
    | .error e => sttHandle e s1
    | .ok text =>
      match env.openWrite output_path with
      | .error e => sttHandle e s1
      | .ok _ => { s1 with fs := fsWrite s1.fs output_path text }

/-- The exception, if any, raised inside the `try` block of
`convert_speech_to_text` (same control flow as the function itself). -/
def sttRaised (env : SttEnv) (audio_path language output_path : String) :
    Option PyExc :=
  match env.openAudio audio_path with
  | .error e => some e
  | .ok audio =>
    match env.recognize audio language with
    | .error e => some e
    | .ok _ =>
      match env.openWrite output_path with
      | .error e => some e
      | .ok _ => Option.none

/-- Which directories the OS lets `os.makedirs` create (permissions etc.). -/
abbrev OsEnv := String → Bool

/-- `os.makedirs(d, exist_ok=True)`: on the empty string the underlying
`mkdir('')` fails with `FileNotFoundError` (errno ENOENT) — `exist_ok` does
not help because `''` does not exist and cannot be created. -/
def makedirs (env : OsEnv) (d : String) : Except PyExc Unit :=
  if d = "" then .error (.fileNotFound "[Errno 2] No such file or directory: ''")
  else if env d then .ok ()
  else .error (.permissionError d)

/-- `os.path.dirname(p)` (POSIX): everything before the final `'/'`, with
trailing slashes stripped unless the head is all slashes; `""` when `p`
contains no slash. -/
def dirname (p : String) : String :=
  let rev := p.data.reverse
  let revHead := rev.dropWhile (fun c => c ≠ '/')
  let stripped := revHead.dropWhile (fun c => c = '/')
  if stripped.isEmpty then String.mk revHead.reverse
  else String.mk stripped.reverse

/-- The parsed CLI arguments (`args.command` with its per-subcommand flags). -/
inductive Cmd where
  | tts (text : String)
  | stt (audio : String) (lang : String)
deriving Repr, DecidableEq

/-- Value of option `name` in the token list.  Every option of this CLI takes
exactly one value, and `argparse` consumes option and value together, so the
scan moves over (option, value) pairs — a value is never mistaken for an
option name. -/
def findOpt (name : String) : List String → Option String
  | [] => Option.none
  | [_] => Option.none
  | t :: v :: rest => if t = name then some v else findOpt name rest

/-- Whether the first character of `t` is `'-'`: `argparse` then scans `t` as
an optional rather than as the subcommand positional. -/
def startsWithDash (t : String) : Bool :=
  match t.data with
  | [] => false
  | c :: _ => c == '-'

/-- Whether `t` invokes the auto-added help option: `-h`, or — since
`argparse` abbreviates long options when unambiguous (`allow_abbrev` defaults
to true and `--help` is the only long option of the top-level parser) — any
prefix of `--help` of length at least 3 (`--h`, `--he`, `--hel`, `--help`). -/
def isHelpToken (t : String) : Bool :=
  t == "-h" || (decide (3 ≤ t.data.length) && t.data.isPrefixOf ("--help").data)

/-- Dispatch on the subcommand choice `c` with remaining tokens `rest`:
`tts` requires `--text <v>`, `stt` requires `--audio <v>` with `--lang`
defaulting to `'en'`; a missing required option and an invalid choice both
make `argparse` call `parser.error`, which exits with code 2. -/
def parseSubcommand (c : String) (rest : List String) :
    Except Nat (Option Cmd) :=
  if c = "tts" then
    match findOpt "--text" rest with
    | some v => .ok (some (.tts v))
    | Option.none => .error 2
  else if c = "stt" then
    match findOpt "--audio" rest with
    | some a => .ok (some (.stt a ((findOpt "--lang" rest).getD "en")))
    | Option.none => .error 2
  else .error 2

/-- `parse_cli_args()` over the argv tokens after the program name.
`argparse` with `add_subparsers(dest='command')`:
- no tokens: parsing succeeds with `command = None`;
- a help token first (`-h`, or an unambiguous abbreviation of `--help` such
  as `--hel`): help is printed and the process exits with code 0;
- `--` first: positional separator, the next token is the subcommand choice;
- any other token starting with `-`: unrecognized optional → exit code 2;
- otherwise the first token is the subcommand choice (`parseSubcommand`).
`.error n` means `argparse` terminated the process with exit code `n`. -/
def parse_cli_args (argv : List String) : Except Nat (Option Cmd) :=
  match argv with
  | [] => .ok Option.none
  | c :: rest =>
    if isHelpToken c then .error 0
    else if c = "--" then
      match rest with
      | [] => .ok Option.none
      | c2 :: rest2 => parseSubcommand c2 rest2
    else if startsWithDash c then .error 2
    else parseSubcommand c rest

/-- How one process run of `main()` ends. -/
inductive MainOutcome where
  /-- `sys.exit(code)` raised inside `argparse` (help or usage error) -/
  | exited (code : Nat) (s : State)
  /-- an uncaught exception escaped `main` (process exits abnormally) -/
  | crashed (e : PyExc) (s : State)
  /-- `main` returned normally: the process exits with code 0 -/
  | finished (s : State)
deriving DecidableEq

namespace TtsStt

/-- `main()`:
```
args = parse_cli_args()
if args.command == 'tts':
    output_file = config.get('TTS', 'output_file', fallback='output/speech_output.mp3')
    os.makedirs(os.path.dirname(output_file), exist_ok=True)
    convert_text_to_speech(args.text, output_file)
elif args.command == 'stt':
    output_file = config.get('STT', 'output_file', fallback='output/text_output.txt')
    os.makedirs(os.path.dirname(output_file), exist_ok=True)
    convert_speech_to_text(args.audio, output_file, args.lang)
else:
    print("‚ùå Invalid command. Use --help for options.")
```
The `os.makedirs` calls are outside any `try`, so their exceptions crash the
process before the conversion function is called. -/
def main (tenv : TtsEnv) (senv : SttEnv) (osenv : OsEnv) (argv : List String)
    (s : State) : MainOutcome :=
  match parse_cli_args argv with
  | .error code => .exited code s
  | .ok (some (.tts text)) =>
    let output_file := configGet s.config "TTS" "output_file" "output/speech_output.mp3"
    match makedirs osenv (dirname output_file) with
    | .error e => .crashed e s
    | .ok _ => .finished (convert_text_to_speech tenv text output_file s)
  | .ok (some (.stt audio lang)) =>
    let output_file := configGet s.config "STT" "output_file" "output/text_output.txt"
    match makedirs osenv (dirname output_file) with
    | .error e => .crashed e s
    | .ok _ => .finished (convert_speech_to_text senv audio output_file lang s)
  | .ok Option.none =>
    .finished (printLn s "‚ùå Invalid command. Use --help for options.")

end TtsStt

/-- The message `ttsHandle` logs for exception `e` (read off the handlers). -/
def ttsMsgOf (e : PyExc) : String :=
  match e with
  | .permissionError m => "Permission denied while saving file: " ++ m
  | e => "Unexpected error occured in TTS: " ++ e.str

/-- Whether `e` is a `PermissionError` (the class tested by the first
`except` clause of `convert_text_to_speech`). -/
def PyExc.isPermission : PyExc → Bool
  | .permissionError _ => true
  | _ => false

/-- Failure category of an exception under the STT `except` clauses:
0 = audio file missing, 1 = unintelligible, 2 = recognition-service request
failure, 3 = generic. -/
def sttCategory (e : PyExc) : Nat :=
  match e with
  | .fileNotFound _ => 0
  | .unknownValueError => 1
  | .requestError _ => 2
  | _ => 3

/-- Recovering the failure category from a logged STT message alone: the four
handlers produce messages of mutually exclusive shapes, so the category can be
read back off the message (this is what "distinguishes the failure cases by
logging different messages" means). -/
def msgCategory (msg : String) : Nat :=
  if ("Audio file not found: ").data.isPrefixOf msg.data then 0
  else if msg = "Speech was unintelligible." then 1
  else if ("Sppech recognition API error: ").data.isPrefixOf msg.data then 2
  else 3

/-! ### Sample concrete environments and state, for witnesses -/

/-- Initial state: empty configuration (missing `config.ini`), default level
INFO = 20, empty file system and logs. -/
def state0 : State := ⟨[], 20, [], [], [], [], [], []⟩

/-- An OS that allows creating every (nonempty) directory. -/
def osOk : OsEnv := fun _ => true

/-- A TTS provider whose synthesis and save always succeed. -/
def ttsEnvOk : TtsEnv := ⟨fun _ _ _ => .ok "AUDIOBYTES"⟩

/-- A TTS run where saving the file is denied. -/
def ttsEnvPerm : TtsEnv := ⟨fun _ _ _ => .error (.permissionError "denied")⟩

/-- An STT run where everything succeeds and recognition yields
`"hello world"`. -/
def sttEnvOk : SttEnv :=
  ⟨fun _ => .ok "AUDIO", fun _ _ => .ok "hello world", fun _ => .ok ()⟩

/-- An STT run where the audio file is missing. -/
def sttEnvMissing : SttEnv :=
  ⟨fun _ => .error (.fileNotFound "no file"), fun _ _ => .ok "x", fun _ => .ok ()⟩

/-- An STT run where the audio loads but recognition cannot understand it. -/
def sttEnvUnk : SttEnv :=
  ⟨fun _ => .ok "AUDIO", fun _ _ => .error .unknownValueError, fun _ => .ok ()⟩

/-! ### Helper lemmas -/

theorem logError_fs (s : State) (m : String) : (logError s m).fs = s.fs := by
  unfold logError; split <;> rfl

theorem logError_config (s : State) (m : String) :
    (logError s m).config = s.config := by
  unfold logError; split <;> rfl

theorem logError_ttsRequests (s : State) (m : String) :
    (logError s m).ttsRequests = s.ttsRequests := by
  unfold logError; split <;> rfl

theorem logError_records_of_le (s : State) (m : String)
    (h : s.loggerLevel ≤ 40) :
    (logError s m).loggerRecords = s.loggerRecords ++ [(40, m)] := by
  unfold logError; rw [if_pos h]

theorem sttHandle_fs (e : PyExc) (s : State) : (sttHandle e s).fs = s.fs := by
  cases e <;> simp [sttHandle, logError_fs]

theorem sttHandle_config (e : PyExc) (s : State) :
    (sttHandle e s).config = s.config := by
  cases e <;> simp [sttHandle, logError_config]

theorem sttHandle_records (e : PyExc) (s : State) (h : s.loggerLevel ≤ 40) :
    (sttHandle e s).loggerRecords = s.loggerRecords ++ [(40, sttMsgOf e)] := by
  cases e <;> simp [sttHandle, sttMsgOf, logError_records_of_le _ _ h]

theorem ttsHandle_fs (e : PyExc) (s : State) : (ttsHandle e s).fs = s.fs := by
  cases e <;> simp [ttsHandle, logError_fs]

theorem ttsHandle_config (e : PyExc) (s : State) :
    (ttsHandle e s).config = s.config := by
  cases e <;> simp [ttsHandle, logError_config]

theorem ttsHandle_ttsRequests (e : PyExc) (s : State) :
    (ttsHandle e s).ttsRequests = s.ttsRequests := by
  cases e <;> simp [ttsHandle, logError_ttsRequests]

theorem ttsHandle_records (e : PyExc) (s : State) (h : s.loggerLevel ≤ 40) :
    (ttsHandle e s).loggerRecords = s.loggerRecords ++ [(40, ttsMsgOf e)] := by
  cases e <;> simp [ttsHandle, ttsMsgOf, logError_records_of_le _ _ h]

theorem isPrefixOf_self_append : ∀ (l t : List Char), l.isPrefixOf (l ++ t) = true
  | [], _ => by simp [List.isPrefixOf]
  | a :: as, t => by simp [List.isPrefixOf, isPrefixOf_self_append as t]

/-- The four STT handler messages determine their category, for every
interpolated error string. -/
theorem msgCategory_sttMsgOf (e : PyExc) : msgCategory (sttMsgOf e) = sttCategory e := by
  have hreq : ∀ m : String,
      ("Sppech recognition API error: " ++ m) ≠ "Speech was unintelligible." := by
    intro m h
    have h2 : (("Sppech recognition API error: " ++ m).data).get? 2 =
        ("Speech was unintelligible.".data).get? 2 := by rw [h]
    rw [String.data_append] at h2
    have h4 : (some 'p' : Option Char) = some 'e' := h2
    exact absurd h4 (by decide)
  cases e with
  | fileNotFound m =>
    simp [msgCategory, sttMsgOf, sttCategory, String.data_append,
      isPrefixOf_self_append]
  | unknownValueError => rfl
  | requestError m =>
    have h1 : ("Audio file not found: ").data.isPrefixOf
        (("Sppech recognition API error: ").data ++ m.data) = false := rfl
    simp [msgCategory, sttMsgOf, sttCategory, String.data_append, h1, hreq m,
      isPrefixOf_self_append]
  | permissionError m =>
    have h1 : ("Audio file not found: ").data.isPrefixOf
        (("Unexpected error in STT: ").data ++ m.data) = false := rfl
    have h2 : ("Sppech recognition API error: ").data.isPrefixOf
        (("Unexpected error in STT: ").data ++ m.data) = false := rfl
    have h3 : ("Unexpected error in STT: " ++ m) ≠ "Speech was unintelligible." := by
      intro h
      have hg : (("Unexpected error in STT: " ++ m).data).get? 0 =
          ("Speech was unintelligible.".data).get? 0 := by rw [h]
      rw [String.data_append] at hg
      have h4 : (some 'U' : Option Char) = some 'S' := hg
      exact absurd h4 (by decide)
    simp [msgCategory, sttMsgOf, sttCategory, PyExc.str, String.data_append,
      h1, h2, h3]
  | typeError m =>
    have h1 : ("Audio file not found: ").data.isPrefixOf
        (("Unexpected error in STT: ").data ++ m.data) = false := rfl
    have h2 : ("Sppech recognition API error: ").data.isPrefixOf
        (("Unexpected error in STT: ").data ++ m.data) = false := rfl
    have h3 : ("Unexpected error in STT: " ++ m) ≠ "Speech was unintelligible." := by
      intro h
      have hg : (("Unexpected error in STT: " ++ m).data).get? 0 =
          ("Speech was unintelligible.".data).get? 0 := by rw [h]
      rw [String.data_append] at hg
      have h4 : (some 'U' : Option Char) = some 'S' := hg
      exact absurd h4 (by decide)
    simp [msgCategory, sttMsgOf, sttCategory, PyExc.str, String.data_append,
      h1, h2, h3]
  | otherError m =>
    have h1 : ("Audio file not found: ").data.isPrefixOf
        (("Unexpected error in STT: ").data ++ m.data) = false := rfl
    have h2 : ("Sppech recognition API error: ").data.isPrefixOf
        (("Unexpected error in STT: ").data ++ m.data) = false := rfl
    have h3 : ("Unexpected error in STT: " ++ m) ≠ "Speech was unintelligible." := by
      intro h
      have hg : (("Unexpected error in STT: " ++ m).data).get? 0 =
          ("Speech was unintelligible.".data).get? 0 := by rw [h]
      rw [String.data_append] at hg
      have h4 : (some 'U' : Option Char) = some 'S' := hg
      exact absurd h4 (by decide)
    simp [msgCategory, sttMsgOf, sttCategory, PyExc.str, String.data_append,
      h1, h2, h3]

/-- C1: whenever speech recognition does not succeed — the audio file is
missing, the audio is unintelligible, the recognition request fails, or any
other exception is raised before a transcript is obtained —
`convert_speech_to_text` creates or modifies no file: the write to the output
path happens only after successful recognition. -/
theorem stt_no_write_on_failed_recognition (env : SttEnv)
    (a o l : String) (s : State)
    (h : ∀ audio, env.openAudio a = .ok audio →
      ∃ e, env.recognize audio l = .error e) :
    (convert_speech_to_text env a o l s).fs = s.fs := by
  unfold convert_speech_to_text
  cases hoa : env.openAudio a with
  | error e => exact sttHandle_fs e s
  | ok audio =>
    obtain ⟨e, he⟩ := h audio hoa
    dsimp only
    rw [he]
    exact sttHandle_fs e _

theorem stt_no_write_on_failed_recognition_witness :
    (convert_speech_to_text sttEnvUnk "in.wav" "out.txt" "en" state0).fs
      = state0.fs :=
  stt_no_write_on_failed_recognition sttEnvUnk "in.wav" "out.txt" "en" state0
    (fun _ _ => ⟨.unknownValueError, rfl⟩)

/-- C2: whatever exception `e` the STT `try` block raises,
`convert_speech_to_text` logs exactly one ERROR record whose message is
`sttMsgOf e`, and that message determines the failure category (missing file /
unintelligible / request failure / generic) — the three specific cases get
distinct category-specific messages and everything else falls to the generic
handler.  The function's result type (`State`, not `Except`) reflects that no
failure propagates to the caller. -/
theorem stt_error_taxonomy (env : SttEnv) (a o l : String) (s : State)
    (e : PyExc) (hlvl : s.loggerLevel ≤ 40)
    (h : sttRaised env a l o = some e) :
    (convert_speech_to_text env a o l s).loggerRecords
        = s.loggerRecords ++ [(40, sttMsgOf e)]
    ∧ msgCategory (sttMsgOf e) = sttCategory e := by
  refine ⟨?_, msgCategory_sttMsgOf e⟩
  unfold convert_speech_to_text
  unfold sttRaised at h
  cases hoa : env.openAudio a with
  | error e2 =>
    rw [hoa] at h
    injection h with h2
    subst h2
    exact sttHandle_records _ s hlvl
  | ok audio =>
    rw [hoa] at h
    dsimp only at h ⊢
    cases hre : env.recognize audio l with
    | error e2 =>
      rw [hre] at h
      injection h with h2
      subst h2
      exact sttHandle_records _ _ hlvl
    | ok t =>
      rw [hre] at h
      cases hw : env.openWrite o with
      | error e2 =>
        rw [hw] at h
        injection h with h2
        subst h2
        exact sttHandle_records _ _ hlvl
      | ok u =>
        rw [hw] at h
        exact Option.noConfusion h

theorem stt_error_taxonomy_witness :
    state0.loggerLevel ≤ 40
    ∧ sttRaised sttEnvMissing "in.wav" "en" "out.txt"
        = some (.fileNotFound "no file")
    ∧ ((convert_speech_to_text sttEnvMissing "in.wav" "out.txt" "en"
          state0).loggerRecords
        = state0.loggerRecords ++ [(40, sttMsgOf (.fileNotFound "no file"))]
      ∧ msgCategory (sttMsgOf (.fileNotFound "no file"))
          = sttCategory (.fileNotFound "no file")) :=
  ⟨by decide, rfl,
   stt_error_taxonomy sttEnvMissing "in.wav" "out.txt" "en" state0
     (.fileNotFound "no file") (by decide) rfl⟩

/-- C3: whatever exception the TTS `try` block raises,
`convert_text_to_speech` logs exactly one ERROR record and returns: a
`PermissionError` gets the permission-denied message, anything else the
generic message.  The result type (`State`, not `Except`) reflects that the
caller receives no exception and no success/failure signal. -/
theorem tts_error_swallowed (env : TtsEnv) (t o : String) (s : State)
    (e : PyExc) (hlvl : s.loggerLevel ≤ 40)
    (h : env.result t "en" o = .error e) :
    (convert_text_to_speech env t o s).loggerRecords
        = s.loggerRecords ++ [(40, ttsMsgOf e)]
    ∧ (∀ m, ttsMsgOf (.permissionError m)
        = "Permission denied while saving file: " ++ m)
    ∧ (∀ e2 : PyExc, e2.isPermission = false →
        ttsMsgOf e2 = "Unexpected error occured in TTS: " ++ e2.str) := by
  refine ⟨?_, fun m => rfl, ?_⟩
  · unfold convert_text_to_speech
    rw [h]
    exact ttsHandle_records e _ hlvl
  · intro e2 he2
    cases e2 <;> first
      | rfl
      | simp [PyExc.isPermission] at he2

theorem tts_error_swallowed_witness :
    state0.loggerLevel ≤ 40
    ∧ ttsEnvPerm.result "hi" "en" "out.mp3"
        = .error (.permissionError "denied")
    ∧ ((convert_text_to_speech ttsEnvPerm "hi" "out.mp3" state0).loggerRecords
        = state0.loggerRecords ++ [(40, ttsMsgOf (.permissionError "denied"))]
      ∧ (∀ m, ttsMsgOf (.permissionError m)
          = "Permission denied while saving file: " ++ m)
      ∧ (∀ e2 : PyExc, e2.isPermission = false →
          ttsMsgOf e2 = "Unexpected error occured in TTS: " ++ e2.str)) :=
  ⟨by decide, rfl,
   tts_error_swallowed ttsEnvPerm "hi" "out.mp3" state0
     (.permissionError "denied") (by decide) rfl⟩

/-- C6: every synthesis request `convert_text_to_speech` sends carries the
literal language code `"en"` — the function has no language parameter and no
configuration key influences it — and when the provider call succeeds the
provider's audio is written to the given destination path. -/
theorem tts_requests_english (env : TtsEnv) (t o : String) (s : State) :
    (convert_text_to_speech env t o s).ttsRequests
        = s.ttsRequests ++ [(t, "en")]
    ∧ (∀ audio, env.result t "en" o = .ok audio →
        fsRead (convert_text_to_speech env t o s).fs o = some audio) := by
  constructor
  · unfold convert_text_to_speech
    cases hr : env.result t "en" o with
    | error e => exact ttsHandle_ttsRequests e _
    | ok audio => rfl
  · intro audio h
    unfold convert_text_to_speech
    rw [h]
    simp [fsRead, fsWrite, printLn, rootLogInfo]

theorem tts_requests_english_witness :
    (convert_text_to_speech ttsEnvOk "hi" "out.mp3" state0).ttsRequests
        = state0.ttsRequests ++ [("hi", "en")]
    ∧ fsRead (convert_text_to_speech ttsEnvOk "hi" "out.mp3" state0).fs
        "out.mp3" = some "AUDIOBYTES" :=
  ⟨(tts_requests_english ttsEnvOk "hi" "out.mp3" state0).1,
   (tts_requests_english ttsEnvOk "hi" "out.mp3" state0).2 "AUDIOBYTES" rfl⟩

/-- C5 counterexample: invoking the CLI with the unknown subcommand `foo`
does not exit normally with code 0 — `argparse` rejects the invalid choice
and the process exits with code 2, with no message printed by `main`. -/
theorem cli_unknown_command_exits_2 :
    parse_cli_args ["foo"] = .error 2
    ∧ TtsStt.main ttsEnvOk sttEnvOk osOk ["foo"] state0 = .exited 2 state0 :=
  ⟨rfl, rfl⟩

/-- A token that does not begin with `-` can never be a help token: it is
neither `-h` nor a prefix of `--help` of length at least 3. -/
theorem isHelpToken_false_of_no_dash (c : String)
    (hd : startsWithDash c = false) : isHelpToken c = false := by
  unfold isHelpToken
  have h1 : (c == "-h") = false := by
    cases h : c == "-h" with
    | false => rfl
    | true =>
      have hc : c = "-h" := eq_of_beq h
      subst hc
      exact absurd hd (by decide)
  rw [h1]
  cases hc : c.data with
  | nil => simp [hc]
  | cons ch tl =>
    have hch : (ch == '-') = false := by
      unfold startsWithDash at hd
      rw [hc] at hd
      exact hd
    rw [show ("--help").data = '-' :: '-' :: 'h' :: 'e' :: 'l' :: 'p' :: []
          from rfl]
    simp [hc, List.isPrefixOf, hch]

/-- A token that does not begin with `-` is not the `--` separator. -/
theorem ne_separator_of_no_dash (c : String)
    (hd : startsWithDash c = false) : c ≠ "--" := by
  intro h
  subst h
  exact absurd hd (by decide)

/-- C5 (amended): with no subcommand at all, `main` prints the
invalid-command message and returns normally (process exit code 0,
no conversion); with an unrecognized subcommand word — a first token that
does not begin with `-` and is neither `tts` nor `stt` — `argparse` rejects
the invalid choice and the process exits with code 2 before `main`
dispatches; and a help token (`-h`, or an unambiguous abbreviation of
`--help` such as `--hel`) makes the process exit with code 0. -/
theorem cli_dispatch_exit_behaviour (tenv : TtsEnv) (senv : SttEnv)
    (osenv : OsEnv) (s : State) :
    TtsStt.main tenv senv osenv [] s
        = .finished (printLn s "‚ùå Invalid command. Use --help for options.")
    ∧ (∀ (c : String) (rest : List String),
        startsWithDash c = false → c ≠ "tts" → c ≠ "stt" →
        TtsStt.main tenv senv osenv (c :: rest) s = .exited 2 s)
    ∧ (∀ (c : String) (rest : List String), isHelpToken c = true →
        TtsStt.main tenv senv osenv (c :: rest) s = .exited 0 s) := by
  refine ⟨rfl, ?_, ?_⟩
  · intro c rest hd h1 h2
    have hh := isHelpToken_false_of_no_dash c hd
    have hsep := ne_separator_of_no_dash c hd
    simp [TtsStt.main, parse_cli_args, parseSubcommand, hh, hsep, hd, h1, h2]
  · intro c rest hh
    simp [TtsStt.main, parse_cli_args, hh]

theorem cli_dispatch_exit_behaviour_witness :
    TtsStt.main ttsEnvOk sttEnvOk osOk [] state0
        = .finished
            (printLn state0 "‚ùå Invalid command. Use --help for options.")
    ∧ TtsStt.main ttsEnvOk sttEnvOk osOk ["frobnicate"] state0
        = .exited 2 state0
    ∧ TtsStt.main ttsEnvOk sttEnvOk osOk ["--hel"] state0
        = .exited 0 state0 :=
  ⟨(cli_dispatch_exit_behaviour ttsEnvOk sttEnvOk osOk state0).1,
   (cli_dispatch_exit_behaviour ttsEnvOk sttEnvOk osOk state0).2.1
     "frobnicate" [] rfl (by decide) (by decide),
   (cli_dispatch_exit_behaviour ttsEnvOk sttEnvOk osOk state0).2.2
     "--hel" [] rfl⟩

/-- C7 counterexample: a fully successful speech-to-text run (the transcript
`"hello world"` is written to `out.txt`) emits no record at all through the
configured logger `TextSpeechLogger`, and a successful text-to-speech run
emits its record on the root logger (via the module-level `logging.info`
call), not through `TextSpeechLogger` — so neither success path produces an
entry in the configured log file. -/
theorem success_paths_unlogged :
    ((convert_speech_to_text sttEnvOk "in.wav" "out.txt" "en"
        state0).loggerRecords = []
      ∧ fsRead (convert_speech_to_text sttEnvOk "in.wav" "out.txt" "en"
          state0).fs "out.txt" = some "hello world"
      ∧ (convert_speech_to_text sttEnvOk "in.wav" "out.txt" "en"
          state0).rootRecords = [])
    ∧ ((convert_text_to_speech ttsEnvOk "hi" "out.mp3" state0).loggerRecords
        = []
      ∧ (convert_text_to_speech ttsEnvOk "hi" "out.mp3" state0).rootRecords
        = [(20, "Speech saved to: out.mp3")]) :=
  ⟨⟨rfl, rfl, rfl⟩, ⟨rfl, rfl⟩⟩

/-- C7 (amended): every failure path in both conversion functions logs one
ERROR record through the configured `TextSpeechLogger`; the text-to-speech
success path emits an INFO record on the root logger (not through
`TextSpeechLogger`, hence not into the configured log file) and prints to
stdout; the speech-to-text success path emits no log record of any kind. -/
theorem logging_per_path (tenv : TtsEnv) (senv : SttEnv) (t a o l : String)
    (s : State) (hlvl : s.loggerLevel ≤ 40) :
    (∀ e, sttRaised senv a l o = some e →
      (convert_speech_to_text senv a o l s).loggerRecords
        = s.loggerRecords ++ [(40, sttMsgOf e)])
    ∧ (sttRaised senv a l o = Option.none →
      (convert_speech_to_text senv a o l s).loggerRecords = s.loggerRecords
      ∧ (convert_speech_to_text senv a o l s).rootRecords = s.rootRecords
      ∧ (convert_speech_to_text senv a o l s).stdout = s.stdout)
    ∧ (∀ e, tenv.result t "en" o = .error e →
      (convert_text_to_speech tenv t o s).loggerRecords
        = s.loggerRecords ++ [(40, ttsMsgOf e)])
    ∧ (∀ audio, tenv.result t "en" o = .ok audio →
      (convert_text_to_speech tenv t o s).loggerRecords = s.loggerRecords
      ∧ (convert_text_to_speech tenv t o s).rootRecords
          = s.rootRecords ++ [(20, "Speech saved to: " ++ o)]
      ∧ (convert_text_to_speech tenv t o s).stdout
          = s.stdout ++ ["Speech saved to: " ++ o]) := by
  refine ⟨?_, ?_, ?_, ?_⟩
  · intro e h
    unfold convert_speech_to_text
    unfold sttRaised at h
    cases hoa : senv.openAudio a with
    | error e2 =>
      rw [hoa] at h
      injection h with h2
      subst h2
      exact sttHandle_records _ s hlvl
    | ok audio =>
      rw [hoa] at h
      dsimp only at h ⊢
      cases hre : senv.recognize audio l with
      | error e2 =>
        rw [hre] at h
        injection h with h2
        subst h2
        exact sttHandle_records _ _ hlvl
      | ok t2 =>
        rw [hre] at h
        cases hw : senv.openWrite o with
        | error e2 =>
          rw [hw] at h
          injection h with h2
          subst h2
          exact sttHandle_records _ _ hlvl
        | ok u =>
          rw [hw] at h
          exact Option.noConfusion h
  · intro h
    unfold convert_speech_to_text
    unfold sttRaised at h
    cases hoa : senv.openAudio a with
    | error e2 =>
      rw [hoa] at h
      exact Option.noConfusion h
    | ok audio =>
      rw [hoa] at h
      dsimp only at h ⊢
      cases hre : senv.recognize audio l with
      | error e2 =>
        rw [hre] at h
        exact Option.noConfusion h
      | ok t2 =>
        rw [hre] at h
        cases hw : senv.openWrite o with
        | error e2 =>
          rw [hw] at h
          exact Option.noConfusion h
        | ok u => exact ⟨rfl, rfl, rfl⟩
  · intro e h
    unfold convert_text_to_speech
    rw [h]
    exact ttsHandle_records e _ hlvl
  · intro audio h
    unfold convert_text_to_speech
    rw [h]
    exact ⟨rfl, rfl, rfl⟩

theorem logging_per_path_witness :
    state0.loggerLevel ≤ 40
    ∧ ((convert_speech_to_text sttEnvMissing "in.wav" "out.txt" "en"
          state0).loggerRecords
        = state0.loggerRecords ++ [(40, sttMsgOf (.fileNotFound "no file"))])
    ∧ ((convert_text_to_speech ttsEnvOk "hi" "out.mp3" state0).rootRecords
        = state0.rootRecords ++ [(20, "Speech saved to: " ++ "out.mp3")]) :=
  ⟨by decide,
   (logging_per_path ttsEnvOk sttEnvMissing "hi" "in.wav" "out.txt" "en"
       state0 (by decide)).1 (.fileNotFound "no file") rfl,
   ((logging_per_path ttsEnvOk sttEnvMissing "hi" "out.mp3" "out.mp3" "en"
       state0 (by decide)).2.2.2 "AUDIOBYTES" rfl).2.1⟩

/-- The state carried by a `MainOutcome`. -/
def MainOutcome.state : MainOutcome → State
  | .exited _ s => s
  | .crashed _ s => s
  | .finished s => s

theorem convert_tts_config (env : TtsEnv) (t o : String) (s : State) :
    (convert_text_to_speech env t o s).config = s.config := by
  unfold convert_text_to_speech
  cases env.result t "en" o with
  | error e => exact ttsHandle_config e _
  | ok audio => rfl

theorem convert_stt_config (env : SttEnv) (a o l : String) (s : State) :
    (convert_speech_to_text env a o l s).config = s.config := by
  unfold convert_speech_to_text
  cases env.openAudio a with
  | error e => exact sttHandle_config e _
  | ok audio =>
    dsimp only
    cases env.recognize audio l with
    | error e => exact sttHandle_config e _
    | ok t2 =>
      cases env.openWrite o with
      | error e => exact sttHandle_config e _
      | ok u => rfl

/-- C8: the configuration is loaded once at startup and no operation mutates
it — after any run of either conversion function or of `main`, the
configuration key-value pairs are exactly what they were before. -/
theorem config_never_mutated (tenv : TtsEnv) (senv : SttEnv) (osenv : OsEnv)
    (t a o l : String) (argv : List String) (s : State) :
    (convert_text_to_speech tenv t o s).config = s.config
    ∧ (convert_speech_to_text senv a o l s).config = s.config
    ∧ (TtsStt.main tenv senv osenv argv s).state.config = s.config := by
  refine ⟨convert_tts_config tenv t o s, convert_stt_config senv a o l s, ?_⟩
  unfold TtsStt.main
  cases parse_cli_args argv with
  | error code => rfl
  | ok cmd =>
    cases cmd with
    | none => rfl
    | some c =>
      cases c with
      | tts text =>
        dsimp only
        cases makedirs osenv
            (dirname (configGet s.config "TTS" "output_file"
              "output/speech_output.mp3")) with
        | error e => rfl
        | ok u => exact convert_tts_config tenv text _ s
      | stt audio lang =>
        dsimp only
        cases makedirs osenv
            (dirname (configGet s.config "STT" "output_file"
              "output/text_output.txt")) with
        | error e => rfl
        | ok u => exact convert_stt_config senv audio _ lang s

